import Mathlib

/-!
Verification of the SentinelNet dashboard core (src/app.py): synthetic event
generation, severity classification, session-guarded time alignment, the
two-facet filter engine, and CSV export.
-/

/-- Python `str.lower()` (ASCII case mapping), applied characterwise. -/
def strLower (s : String) : String := String.mk (s.data.map Char.toLower)

/-- Python `str.upper()` (ASCII case mapping), applied characterwise. -/
def strUpper (s : String) : String := String.mk (s.data.map Char.toUpper)

/-- A raw generated event: `timestamp` (modelled as seconds, an `Int`) and
`attack_type`, matching the two columns built at `alerts_df` construction. -/
structure RawEvent where
  timestamp : Int
  attack_type : String
deriving DecidableEq, Repr

/-- A fully classified record of `alerts_df` after the `severity` and `label`
columns are added. -/
structure Row where
  timestamp : Int
  attack_type : String
  severity : String
  label : String
deriving DecidableEq, Repr

/-- `pd.date_range(base, periods, freq)`: `periods` instants starting at
`base`, spaced `freq` seconds apart. -/
def date_range (base : Int) (periods : Nat) (freq : Int) : List Int :=
  (List.range periods).map (fun (i : Nat) => base + freq * (i : Int))

/-- The synthetic event generator (src/app.py lines 84-101): `high` events
labelled "dos" every 10 s, then `medium` events labelled "other" every 5 min,
then `normal` events labelled "normal" every 5 min, concatenated in order. -/
def generate (high medium normal : Nat) (base : Int) : List RawEvent :=
  ((date_range base high 10).map (fun t => RawEvent.mk t "dos"))
    ++ ((date_range base medium 300).map (fun t => RawEvent.mk t "other"))
    ++ ((date_range base normal 300).map (fun t => RawEvent.mk t "normal"))

/-- The fixed high-severity attack-type list (src/app.py line 106). -/
def HIGH_SEVERITY : List String :=
  ["dos", "ddos", "u2r", "r2l", "probe", "backdoor", "worm"]

/-- `classify_severity` (src/app.py lines 108-115): lowercase the input, return
"HIGH" on membership in `HIGH_SEVERITY`, else "NORMAL" on exact "normal", else
"MEDIUM". -/
def classify_severity (attack : String) : String :=
  if HIGH_SEVERITY.contains (strLower attack) then "HIGH"
  else if strLower attack = "normal" then "NORMAL"
  else "MEDIUM"

/-- Adding the derived `severity` and `label` columns (src/app.py lines
117-118). -/
def classifyDf (l : List RawEvent) : List Row :=
  l.map (fun e =>
    Row.mk e.timestamp e.attack_type (classify_severity e.attack_type) (strUpper e.attack_type))

/-- `alerts_df["timestamp"].max()` (src/app.py line 124); 0 only on the empty
frame, which the app never builds. -/
def maxTimestamp : List Row → Int
  | [] => 0
  | [r] => r.timestamp
  | r :: rest => max r.timestamp (maxTimestamp rest)

/-- `alerts_df["timestamp"] += shift` (src/app.py line 125). -/
def shiftBy (s : Int) (d : List Row) : List Row :=
  d.map (fun r => { r with timestamp := r.timestamp + s })

/-- The session-guarded alignment block (src/app.py lines 123-126): the state
is the `time_shift` session flag paired with the dataset; when the flag is
unset, shift every timestamp by `now - max(timestamp)` and set the flag,
otherwise do nothing. -/
def alignStep (now : Int) (st : Bool × List Row) : Bool × List Row :=
  if st.1 then st
  else (true, shiftBy (now - maxTimestamp st.2) st.2)

/-- The attack-type filter stage (src/app.py lines 174-175): "All" passes the
frame through, any other choice keeps rows with that exact `attack_type`. -/
def attackFilterStep (choice : String) (d : List Row) : List Row :=
  if choice = "All" then d else d.filter (fun r => r.attack_type == choice)

/-- The severity filter stage (src/app.py line 177):
`df[df["severity"].isin(severity_filter)]`. -/
def severityFilterStep (choices : List String) (d : List Row) : List Row :=
  d.filter (fun r => choices.contains r.severity)

/-- The whole filter block (src/app.py lines 172-177): attack-type stage then
severity stage on a copy of the base frame. -/
def filterEngine (d : List Row) (choice : String) (choices : List String) : List Row :=
  severityFilterStep choices (attackFilterStep choice d)

/-- One interaction of the render loop on the filter block: it works on
`alerts_df.copy()` (src/app.py line 172), so it returns the untouched base
frame alongside the filtered view. -/
def computeView (base : List Row) (choice : String) (choices : List String) :
    List Row × List Row :=
  let df := base
  (base, filterEngine df choice choices)

/-- The attack-type selectbox options (src/app.py lines 160-163):
`["All"] + sorted(alerts_df["attack_type"].unique())`. -/
def attackChoices (d : List Row) : List String :=
  "All" :: ((d.map Row.attack_type).dedup.mergeSort (fun a b => decide (a ≤ b)))

/-- The columns of `df`, in construction order (src/app.py lines 94-118). -/
def csvColumns : List String := ["timestamp", "attack_type", "severity", "label"]

/-- One cell of the exported frame, keyed by column name. -/
def csvCell (r : Row) (c : String) : String :=
  if c = "timestamp" then toString r.timestamp
  else if c = "attack_type" then r.attack_type
  else if c = "severity" then r.severity
  else r.label

/-- `df.to_csv(index=False)` (src/app.py line 266): a comma-joined header line
followed by one comma-joined line per row, each line ending in a newline. -/
def to_csv (l : List Row) : String :=
  String.intercalate "," csvColumns ++ "\n"
    ++ String.join (l.map (fun r => String.intercalate "," (csvColumns.map (csvCell r)) ++ "\n"))

/-- The generator constants (src/app.py lines 84-86). -/
def HIGH_COUNT : Nat := 15799

def MEDIUM_COUNT : Nat := 100

def NORMAL_COUNT : Nat := 100

example : classify_severity "DoS" = "HIGH" := by decide
example : classify_severity "" = "MEDIUM" := by decide
example : (generate 3 1 1 0).length = 5 := by decide
example : to_csv [] = "timestamp,attack_type,severity,label\n" := by decide
example :
    to_csv (classifyDf (generate 1 0 0 7))
      = "timestamp,attack_type,severity,label\n7,dos,HIGH,DOS\n" := by decide
example : filterEngine (classifyDf (generate 1 1 1 0)) "All" [] = [] := by decide
example :
    (filterEngine (classifyDf (generate 3 1 1 0)) "dos" ["HIGH", "MEDIUM", "NORMAL"]).length
      = 3 := by decide
example :
    alignStep 50 (alignStep 40 (false, classifyDf (generate 2 0 0 0)))
      = alignStep 40 (false, classifyDf (generate 2 0 0 0)) := by decide
example : maxTimestamp (classifyDf (generate 2 2 0 0)) = 300 := by decide

/-- A small concrete dataset produced by the pipeline, used by witnesses. -/
def rowsW : List Row := classifyDf (generate 2 1 1 0)

/-- `classify_severity` always lands in the three-value severity set. -/
lemma classify_severity_mem (a : String) :
    (["HIGH", "MEDIUM", "NORMAL"] : List String).contains (classify_severity a) = true := by
  unfold classify_severity
  split
  · decide
  · split <;> decide

/-- C2: `classify_severity` is total on strings: it lowercases the input,
returns HIGH when the lowered string is in the fixed high-severity set, NORMAL
when the lowered string is exactly "normal", MEDIUM otherwise, and always
returns one of the three values (no error path). -/
theorem classify_severity_cases (a : String) :
    (HIGH_SEVERITY.contains (strLower a) = true → classify_severity a = "HIGH")
    ∧ (strLower a = "normal" → classify_severity a = "NORMAL")
    ∧ (HIGH_SEVERITY.contains (strLower a) = false → strLower a ≠ "normal" →
        classify_severity a = "MEDIUM")
    ∧ (classify_severity a = "HIGH" ∨ classify_severity a = "NORMAL"
        ∨ classify_severity a = "MEDIUM") := by
  refine ⟨fun h => ?_, fun h => ?_, fun h h2 => ?_, ?_⟩
  · have h3 : strLower a ∈ HIGH_SEVERITY := by simpa using h
    simp [classify_severity, h3]
  · have hn : strLower a ∉ HIGH_SEVERITY := by
      rw [h]; decide
    simp [classify_severity, hn, h]
    decide
  · have h3 : strLower a ∉ HIGH_SEVERITY := by simpa using h
    simp [classify_severity, h3, h2]
  · unfold classify_severity
    split
    · exact Or.inl rfl
    · split
      · exact Or.inr (Or.inl rfl)
      · exact Or.inr (Or.inr rfl)

/-- Witness for C2 at concrete inputs: a high-severity type in mixed case, the
upper-cased "normal", and an unrecognized empty string. -/
theorem classify_severity_cases_witness :
    classify_severity "Worm" = "HIGH" ∧ classify_severity "NORMAL" = "NORMAL"
      ∧ classify_severity "" = "MEDIUM" :=
  ⟨(classify_severity_cases "Worm").1 (by decide),
   (classify_severity_cases "NORMAL").2.1 (by decide),
   (classify_severity_cases "").2.2.1 (by decide) (by decide)⟩

/-- C5: filtering with an empty severity-choice set yields the empty subset,
whatever the dataset and attack-type choice — a valid result, not an error. -/
theorem filter_empty_severity (d : List Row) (choice : String) :
    filterEngine d choice [] = [] := by
  simp [filterEngine, severityFilterStep]

/-- C4: with the "All" sentinel and all three severities selected, the filter
is the identity on any dataset whose severity column is the one derived by
`classify_severity` (as every dataset produced by the pipeline is). -/
theorem filter_all_identity (d : List Row)
    (hwf : ∀ r ∈ d, r.severity = classify_severity r.attack_type) :
    filterEngine d "All" ["HIGH", "MEDIUM", "NORMAL"] = d := by
  unfold filterEngine attackFilterStep
  rw [if_pos rfl]
  unfold severityFilterStep
  rw [List.filter_eq_self]
  intro r hr
  rw [hwf r hr]
  exact classify_severity_mem r.attack_type

/-- Witness for C4 on a concrete pipeline-produced dataset. -/
theorem filter_all_identity_witness :
    filterEngine rowsW "All" ["HIGH", "MEDIUM", "NORMAL"] = rowsW :=
  filter_all_identity rowsW (by decide)

/-- C6: starting from a cleared session flag, running the guarded alignment a
second time (at any later clock reading) changes neither the timestamps nor
the flag: the second invocation is a no-op. -/
theorem align_guard_idempotent (d : List Row) (now1 now2 : Int) :
    alignStep now2 (alignStep now1 (false, d)) = alignStep now1 (false, d) := by
  simp [alignStep]

/-- C10: the two filter stages commute, and running both equals one filter by
the conjunction of the attack-type predicate (with its "All" sentinel) and the
severity-membership predicate. -/
theorem filter_stages_commute (d : List Row) (choice : String) (choices : List String) :
    severityFilterStep choices (attackFilterStep choice d)
        = attackFilterStep choice (severityFilterStep choices d)
      ∧ severityFilterStep choices (attackFilterStep choice d)
        = d.filter (fun r =>
            (decide (choice = "All") || (r.attack_type == choice))
              && choices.contains r.severity) := by
  unfold attackFilterStep severityFilterStep
  by_cases h : choice = "All"
  · subst h
    rw [if_pos rfl]
    refine ⟨rfl, ?_⟩
    apply List.filter_congr
    intro r _
    simp
  · rw [if_neg h, if_neg h]
    rw [List.filter_filter, List.filter_filter]
    constructor
    · exact List.filter_congr fun r _ => Bool.and_comm _ _
    · apply List.filter_congr
      intro r _
      simp [h]
      rw [Bool.and_comm]

/-- C8: one interaction of the filter block leaves the base dataset unchanged,
produces a filtered view that is a sublist of (shares its rows with) the base,
and is deterministic in the dataset and the two choices. -/
theorem filter_frame_deterministic (base : List Row) (choice : String)
    (choices : List String) :
    (computeView base choice choices).1 = base
      ∧ (computeView base choice choices).2.Sublist base
      ∧ computeView base choice choices = computeView base choice choices := by
  refine ⟨rfl, ?_, rfl⟩
  show (filterEngine base choice choices).Sublist base
  unfold filterEngine severityFilterStep attackFilterStep
  by_cases h : choice = "All"
  · rw [if_pos h]
    exact List.filter_sublist _
  · rw [if_neg h]
    exact (List.filter_sublist _).trans (List.filter_sublist _)

/-- The generator emits exactly `high + medium + normal` events. -/
lemma generate_length (h m n : Nat) (b : Int) :
    (generate h m n b).length = h + m + n := by
  simp [generate, date_range]
  omega

/-- C3: the generator output is the in-order concatenation of `high` "dos"
events spaced 10 s apart from the base instant, `medium` "other" events spaced
5 min apart from the base instant, and `normal` "normal" events spaced 5 min
apart from the base instant, with total count `high + medium + normal`. -/
theorem generate_spec (h m n : Nat) (b : Int) :
    (generate h m n b).length = h + m + n
    ∧ (∀ i, i < h →
        (generate h m n b)[i]? = some (RawEvent.mk (b + 10 * (i : Int)) "dos"))
    ∧ (∀ j, j < m →
        (generate h m n b)[h + j]? = some (RawEvent.mk (b + 300 * (j : Int)) "other"))
    ∧ (∀ k, k < n →
        (generate h m n b)[h + m + k]? = some (RawEvent.mk (b + 300 * (k : Int)) "normal")) := by
  refine ⟨generate_length h m n b, fun i hi => ?_, fun j hj => ?_, fun k hk => ?_⟩
  · unfold generate date_range
    rw [List.getElem?_append,
      if_pos (by simp only [List.length_append, List.length_map, List.length_range]; omega)]
    rw [List.getElem?_append,
      if_pos (by simp only [List.length_map, List.length_range]; omega)]
    rw [List.getElem?_map, List.getElem?_map, List.getElem?_range hi]
    rfl
  · unfold generate date_range
    rw [List.getElem?_append,
      if_pos (by simp only [List.length_append, List.length_map, List.length_range]; omega)]
    rw [List.getElem?_append,
      if_neg (by simp only [List.length_map, List.length_range]; omega)]
    simp only [List.length_map, List.length_range]
    rw [Nat.add_sub_cancel_left]
    rw [List.getElem?_map, List.getElem?_map, List.getElem?_range hj]
    rfl
  · unfold generate date_range
    rw [List.getElem?_append,
      if_neg (by simp only [List.length_append, List.length_map, List.length_range]; omega)]
    simp only [List.length_append, List.length_map, List.length_range]
    have hsub : h + m + k - (h + m) = k := by omega
    rw [hsub]
    rw [List.getElem?_map, List.getElem?_map, List.getElem?_range hk]
    rfl

/-- Witness for C3 at the spec's example `generate(3, 1, 1)` with base 0:
five events, third "dos" event at 20 s, the "other" and "normal" events at the
base instant. -/
theorem generate_spec_witness :
    (generate 3 1 1 0).length = 5
      ∧ (generate 3 1 1 0)[2]? = some (RawEvent.mk 20 "dos")
      ∧ (generate 3 1 1 0)[3]? = some (RawEvent.mk 0 "other")
      ∧ (generate 3 1 1 0)[4]? = some (RawEvent.mk 0 "normal") := by
  have hs := generate_spec 3 1 1 0
  refine ⟨hs.1, ?_, ?_, ?_⟩
  · have := hs.2.1 2 (by decide)
    simpa using this
  · have := hs.2.2.1 0 (by decide)
    simpa using this
  · have := hs.2.2.2 0 (by decide)
    simpa using this

/-- Unfolding equation of `maxTimestamp` on a list of two or more rows. -/
lemma maxTimestamp_cons_cons (r r2 : Row) (rest : List Row) :
    maxTimestamp (r :: r2 :: rest) = max r.timestamp (maxTimestamp (r2 :: rest)) := rfl

/-- Shifting every timestamp by `s` shifts the maximum by `s`. -/
lemma maxTimestamp_shiftBy (s : Int) :
    ∀ d : List Row, d ≠ [] → maxTimestamp (shiftBy s d) = maxTimestamp d + s
  | [], hne => absurd rfl hne
  | [r], _ => rfl
  | r :: r2 :: rest, _ => by
    have ih := maxTimestamp_shiftBy s (r2 :: rest) (by simp)
    have h1 : shiftBy s (r :: r2 :: rest)
        = { r with timestamp := r.timestamp + s } :: shiftBy s (r2 :: rest) := rfl
    have h2 : shiftBy s (r2 :: rest)
        = { r2 with timestamp := r2.timestamp + s } :: shiftBy s rest := rfl
    rw [h1, h2, maxTimestamp_cons_cons, ← h2, ih, maxTimestamp_cons_cons]
    exact max_add_add_right r.timestamp (maxTimestamp (r2 :: rest)) s

/-- C7: the alignment shift `now - max(timestamp)` added to every record keeps
every pairwise timestamp difference unchanged (ordering and spacing preserved)
and brings the maximum timestamp to `now`. -/
theorem shift_preserves_spacing_and_aligns (d : List Row) (now : Int) (hne : d ≠ []) :
    (∀ i j : Fin d.length,
        ((shiftBy (now - maxTimestamp d) d).get
            (Fin.cast (by simp [shiftBy]) i)).timestamp
          - ((shiftBy (now - maxTimestamp d) d).get
              (Fin.cast (by simp [shiftBy]) j)).timestamp
          = (d.get i).timestamp - (d.get j).timestamp)
    ∧ maxTimestamp (shiftBy (now - maxTimestamp d) d) = now := by
  constructor
  · have key : ∀ i : Fin d.length,
        ((shiftBy (now - maxTimestamp d) d).get
            (Fin.cast (by simp [shiftBy]) i)).timestamp
          = (d.get i).timestamp + (now - maxTimestamp d) := by
      intro i
      simp [shiftBy, List.get_eq_getElem]
    intro i j
    rw [key i, key j]
    ring
  · rw [maxTimestamp_shiftBy _ d hne]
    ring

/-- Witness for C7 on a concrete pipeline-produced dataset and clock value. -/
theorem shift_aligns_witness :
    maxTimestamp (shiftBy (500 - maxTimestamp rowsW) rowsW) = 500 :=
  (shift_preserves_spacing_and_aligns rowsW 500 (by decide)).2

/-- C9: the attack-type selectbox offers exactly the sentinel "All" first,
followed by the distinct attack-type values of the dataset in strictly
ascending string order; every attack type present in the data is offered. -/
theorem attack_choices_spec (d : List Row) :
    ∃ rest, attackChoices d = "All" :: rest
      ∧ rest.Pairwise (· < ·)
      ∧ (∀ a, a ∈ rest ↔ a ∈ d.map Row.attack_type) := by
  refine ⟨(d.map Row.attack_type).dedup.mergeSort (fun a b => decide (a ≤ b)), rfl, ?_, ?_⟩
  · have htrans : ∀ a b c : String,
        (decide (a ≤ b)) = true → (decide (b ≤ c)) = true → (decide (a ≤ c)) = true := by
      intro a b c hab hbc
      simp only [decide_eq_true_eq] at hab hbc ⊢
      exact le_trans hab hbc
    have htotal : ∀ a b : String, ((decide (a ≤ b)) || (decide (b ≤ a))) = true := by
      intro a b
      simp [le_total]
    have hsorted := List.sorted_mergeSort htrans htotal (d.map Row.attack_type).dedup
    have hnodup : ((d.map Row.attack_type).dedup.mergeSort
        (fun a b => decide (a ≤ b))).Pairwise (fun a b => a ≠ b) :=
      (List.mergeSort_perm _ _).symm.nodup (List.nodup_dedup _)
    have hle : ((d.map Row.attack_type).dedup.mergeSort
        (fun a b => decide (a ≤ b))).Pairwise (fun a b => a ≤ b) :=
      hsorted.imp fun hab => of_decide_eq_true hab
    exact (hle.and hnodup).imp fun hab => lt_of_le_of_ne hab.1 hab.2
  · intro a
    rw [List.mem_mergeSort, List.mem_dedup]

/-- C1 counterexample: the download serializes the whole filtered frame, whose
columns are timestamp, attack_type, severity, label — on the empty filtered
subset (severity choices emptied on a concrete generated dataset) the export
is the four-column header line, not the claimed `timestamp,label,severity`
header. -/
theorem csv_export_header_counterexample :
    to_csv (filterEngine (classifyDf (generate 1 1 1 0)) "All" [])
        = "timestamp,attack_type,severity,label\n"
      ∧ to_csv (filterEngine (classifyDf (generate 1 1 1 0)) "All" [])
          ≠ "timestamp,label,severity\n"
      ∧ to_csv (filterEngine (classifyDf (generate 1 1 1 0)) "All" [])
          ≠ "timestamp,label,severity" := by
  refine ⟨by decide, by decide, by decide⟩

/-- C1 amended: for every filtered subset the CSV export starts with the
header line `timestamp,attack_type,severity,label` (the filtered frame's
columns in order), and the export of the empty filtered subset is exactly
that header line with no data rows. -/
theorem csv_export_header (l : List Row) :
    (∃ rest, to_csv l = "timestamp,attack_type,severity,label\n" ++ rest)
      ∧ to_csv [] = "timestamp,attack_type,severity,label\n" := by
  constructor
  · refine ⟨String.join (l.map (fun r =>
      String.intercalate "," (csvColumns.map (csvCell r)) ++ "\n")), ?_⟩
    have hhdr : String.intercalate "," csvColumns ++ "\n"
        = "timestamp,attack_type,severity,label\n" := by decide
    rw [to_csv, hhdr]
  · decide
